import Mathlib

/-!
Verification development for the Preview Buddy Blender add-on
(src/PreviewBuddy.py).

The add-on is host-driven: every operation reads and mutates the host
scene through `bpy`.  We shallowly embed the add-on's own logic as pure
Lean functions over an explicit scene-state record.  Host services that
the code merely calls out to (the filesystem, `bpy.path.abspath`, glob
expansion, the OpenGL render itself, `bpy.data.objects`) are supplied as
oracle fields of an environment record, so every embedded function stays
executable.  Machine integers of the host properties are modelled as
`Int` (Blender's int properties; no wrap-around is exercised by this
code) and the float scene property `quickpreview_progress` as `ℚ`
(exact arithmetic standing in for the host's float; the claims about it
concern the algebraic formula and 0/1 clamping only).

Python `str` values, including enum property identifiers such as
`'INCREMENTAL'` or `'MP4_H264'`, are modelled as `String`, and string
comparisons mirror the source's textual comparisons.
-/

namespace PreviewBuddy

/-! ### Small string machinery shared by the path helpers

`os.path` calls in the source use POSIX separators in this model. -/

/-- Characters matched by the regex class `\d` (ASCII digits, which is
what every name this add-on manipulates uses). -/
def isDigitChar (c : Char) : Bool := c.isDigit

/-- Python `int()` of a nonempty digit string. -/
def digitsToNat (ds : List Char) : Nat :=
  ds.foldl (fun acc c => acc * 10 + (c.toNat - '0'.toNat)) 0

/-- Model of `os.path.basename`: the part after the last `/`. -/
def pathBasename (p : String) : String :=
  String.mk ((p.toList.reverse.takeWhile (fun c => c ≠ '/')).reverse)

/-- Model of `os.path.dirname`: the part before the last `/`, with
trailing separators stripped unless the head is all separators. -/
def pathDirname (p : String) : String :=
  let r := p.toList.reverse
  let tail := r.takeWhile (fun c => c ≠ '/')
  let headR := r.drop tail.length
  if headR.isEmpty then ""
  else if headR.all (fun c => c = '/') then String.mk headR.reverse
  else String.mk ((headR.dropWhile (fun c => c = '/')).reverse)

/-- Model of `posixpath.join` for the two-argument calls in the source. -/
def pathJoin (a b : String) : String :=
  if b.startsWith "/" then b
  else if a = "" then b
  else if a.endsWith "/" then a ++ b
  else a ++ "/" ++ b

/-- Model of `os.path.splitext`: split off the extension at the last
dot, provided that dot lies after the last separator and some non-dot
character of the basename precedes it (so `.bashrc` has no extension). -/
def splitext (p : String) : String × String :=
  let r := p.toList.reverse
  let extTail := r.takeWhile (fun c => c ≠ '.')
  if extTail.length = r.length then (p, "")
  else if extTail.any (fun c => c = '/') then (p, "")
  else
    let afterDot := r.drop (extTail.length + 1)
    let baseBeforeDot := afterDot.takeWhile (fun c => c ≠ '/')
    if baseBeforeDot.any (fun c => c ≠ '.') then
      (String.mk afterDot.reverse, String.mk ('.' :: extTail.reverse))
    else (p, "")

/-- Python's `needle in haystack` substring test. -/
def strContainsAux (needle : List Char) : List Char → Bool
  | [] => needle.isEmpty
  | c :: t => ((c :: t).take needle.length == needle) || strContainsAux needle t

/-- Python's `needle in haystack` on `String`s. -/
def strContains (needle hay : String) : Bool :=
  strContainsAux needle.toList hay.toList

/-- Python's `hay.split(pat)[0]`: the text before the first occurrence
of `pat` (the whole string when `pat` does not occur). -/
def takeBeforeFirstAux (pat : List Char) (acc : List Char) : List Char → List Char
  | [] => acc
  | c :: t =>
    if (c :: t).take pat.length == pat then acc
    else takeBeforeFirstAux pat (acc ++ [c]) t

/-- Python's `hay.split(pat)[0]` on `String`s. -/
def takeBeforeFirst (pat hay : String) : String :=
  String.mk (takeBeforeFirstAux pat.toList [] hay.toList)

/-- Python `f"{n:03d}"` for a natural number. -/
def padZeros (k : Nat) (s : String) : String :=
  if s.length ≥ k then s else String.mk (List.replicate (k - s.length) '0') ++ s

/-- Python `f"{n:03d}"` for a natural number. -/
def pad3nat (n : Nat) : String := padZeros 3 (toString n)

/-- Python `f"{n:03d}"` for an integer: minimum width three including
the sign, zero padding after the sign. -/
def pad3int (n : Int) : String :=
  if n < 0 then "-" ++ padZeros 2 (toString n.natAbs) else padZeros 3 (toString n.natAbs)

/-! ### The `_v<digits>` version patterns of `get_next_version_number`

`get_next_version_number` (PreviewBuddy.py lines 590-623) matches the
file's basename against `(.+?)_v\d+<ext>$` with `re.match` and then
each directory entry against `<base>_v(\d+)<ext>$`.  We embed exactly
those matchers: `matchVersionTail` is the `_v(\d+)<ext>$` tail (greedy
`\d+` with backtracking so that exactly `<ext>` remains), and
`extractBaseAux` realises the non-greedy `(.+?)`, which yields the
shortest nonempty prefix whose remainder matches the tail. -/

/-- Match `cs` against `_v(\d+)<ext>$`: `cs` must be `_v`, then one or
more digits, then exactly `ext`.  Returns the integer value of the
digit group (the greedy, backtracking `\d+` takes the longest digit run
that still leaves exactly `ext`). -/
def matchVersionTail (ext : List Char) (cs : List Char) : Option Nat :=
  match cs with
  | '_' :: 'v' :: rest =>
    let m := (rest.takeWhile isDigitChar).length
    let ks := (List.range (m + 1)).filter
      (fun k => decide (1 ≤ k) && (rest.drop k == ext))
    match ks.getLast? with
    | some k => some (digitsToNat (rest.take k))
    | none => none
  | _ => none

/-- The non-greedy `(.+?)` of `(.+?)_v\d+<ext>$` under `re.match`:
scan split points left to right (shortest nonempty base first) and
return the first base whose remainder matches the version tail. -/
def extractBaseAux (ext : List Char) (acc : List Char) : List Char → Option (List Char)
  | [] => none
  | c :: rest =>
    if (matchVersionTail ext rest).isSome then some (acc ++ [c])
    else extractBaseAux ext (acc ++ [c]) rest

/-- Base-name extraction of `get_next_version_number`'s
`re.match(r'(.+?)_v\d+' + re.escape(extension) + r'$', filename)`. -/
def extractBase (ext : List Char) (filename : List Char) : Option (List Char) :=
  extractBaseAux ext [] filename

/-- One directory entry matched against the compiled pattern
`<base>_v(\d+)<ext>$` (the base is `re.escape`d, i.e. literal). -/
def versionOfName (base ext f : List Char) : Option Nat :=
  if f.take base.length == base then matchVersionTail ext (f.drop base.length)
  else none

/-- `get_next_version_number(filepath, extension)` from the source.
The host filesystem is supplied as `dirFiles`: `none` models
`os.path.exists(directory)` returning `False`, `some files` models the
`os.listdir` contents.  All failure paths return `1`. -/
def get_next_version_number (filepath extension : String)
    (dirFiles : Option (List String)) : Nat :=
  let filename := pathBasename filepath
  match extractBase extension.toList filename.toList with
  | some base =>
    match dirFiles with
    | some files =>
      let versions := files.filterMap
        (fun f => versionOfName base extension.toList f.toList)
      match versions with
      | [] => 1
      | v :: vs => (vs.foldl Nat.max v) + 1
    | none => 1
  | none => 1

/-! ### `re.search` patterns of the image-sequence incremental block

`QUICKPREVIEW_OT_render.execute` (lines 793-821) uses
`re.search(r'_v(\d+)', base)` (first occurrence, returning the match
start and the digit group) and `re.search(r'_v(\d+)_', name)` (digit
run followed by an underscore; since a digit is never `_`, only the
maximal run can be followed by `_`, so no backtracking arises). -/

/-- `re.search(r'_v(\d+)', cs)`: the index of the first `_v` that is
followed by at least one digit, together with the value of the maximal
digit run there. -/
def searchVNumAux (i : Nat) : List Char → Option (Nat × Nat)
  | [] => none
  | '_' :: 'v' :: rest =>
    let ds := rest.takeWhile isDigitChar
    if ds.isEmpty then searchVNumAux (i + 1) ('v' :: rest)
    else some (i, digitsToNat ds)
  | _ :: rest => searchVNumAux (i + 1) rest

/-- `re.search(r'_v(\d+)', cs)` from position zero. -/
def searchVNum (cs : List Char) : Option (Nat × Nat) := searchVNumAux 0 cs

/-- `re.search(r'_v(\d+)_', cs)`: the digit group of the first
occurrence of `_v`, one or more digits, `_`. -/
def searchVNumU : List Char → Option Nat
  | [] => none
  | '_' :: 'v' :: rest =>
    let ds := rest.takeWhile isDigitChar
    if !ds.isEmpty && ((rest.drop ds.length).head? == some '_') then
      some (digitsToNat ds)
    else searchVNumU ('v' :: rest)
  | _ :: rest => searchVNumU rest

/-! ### The camera-ranges JSON dictionary

`quickpreview_camera_ranges` is a scene `StringProperty` holding
`json.dumps` of a dict mapping camera names to `{'start': …, 'end': …}`
(lines 334-402).  We model the property by its parsed content — an
association list with the lookup, key-update and key-removal semantics
of a Python dict (`json.dumps`/`json.loads` round-trip such dicts
exactly, and a parsed dict never carries duplicate keys). -/

/-- Python `data[k]` lookup (`k in data` is `(jget k l).isSome`). -/
def jget {α : Type} (k : String) : List (String × α) → Option α
  | [] => none
  | (k', v) :: rest => if k' = k then some v else jget k rest

/-- Python `data[k] = v`: replace the value at the key, or append. -/
def jset {α : Type} (k : String) (v : α) : List (String × α) → List (String × α)
  | [] => [(k, v)]
  | (k', v') :: rest => if k' = k then (k, v) :: rest else (k', v') :: jset k v rest

/-- Python `del data[k]`: remove the key. -/
def jdel {α : Type} (k : String) (l : List (String × α)) : List (String × α) :=
  l.filter (fun e => decide (e.1 ≠ k))

/-- Python `k in data`. -/
def jmem {α : Type} (k : String) (l : List (String × α)) : Bool :=
  (jget k l).isSome

/-! ### The scene state

One record per `scene.render` / `scene.render.image_settings` /
`scene.render.ffmpeg` field the add-on reads or writes, flattened into
`RenderSettings`, plus the scene-level and `quickpreview_*` properties
in `Scene`.  Enum property values stay the Python identifier strings.
The `hasattr` guards of the source (`compression`, `audio_mixrate`,
`use_sequencer`) hold on the Blender 3.0+ API the add-on targets, so
those fields are always present here. -/

structure RenderSettings where
  fps : Int
  resolution_percentage : Int
  filepath : String
  file_format : String
  color_mode : String
  color_depth : String
  compression : Int
  quality : Int
  use_stamp : Bool
  use_stamp_frame : Bool
  use_stamp_frame_range : Bool
  use_stamp_camera : Bool
  use_stamp_lens : Bool
  use_stamp_scene : Bool
  use_stamp_date : Bool
  use_stamp_time : Bool
  use_stamp_render_time : Bool
  use_stamp_memory : Bool
  use_stamp_hostname : Bool
  use_stamp_marker : Bool
  use_stamp_filename : Bool
  stamp_font_size : Int
  ffmpeg_format : String
  ffmpeg_codec : String
  ffmpeg_audio_codec : String
  ffmpeg_constant_rate_factor : String
  ffmpeg_ffmpeg_preset : String
  ffmpeg_gopsize : Int
  ffmpeg_use_autosplit : Bool
  ffmpeg_audio_channels : Int
  ffmpeg_audio_bitrate : Int
  audio_mixrate : Int
  use_sequencer : Bool
  use_simplify : Bool
deriving DecidableEq

/-- The scene state the add-on touches.  `camera` is the name of the
active camera object (`none` when `scene.camera` is `None`); the
`qp_` fields are the registered `quickpreview_*` scene properties. -/
structure Scene where
  frame_start : Int
  frame_end : Int
  frame_current : Int
  camera : Option String
  render : RenderSettings
  qp_camera : String
  qp_frame_start : Int
  qp_frame_end : Int
  qp_output_path : String
  qp_output_format : String
  qp_save_mode : String
  qp_video_quality : String
  qp_image_quality : Int
  qp_use_simplify : Bool
  qp_override_fps : Bool
  qp_fps : Int
  qp_override_resolution_scale : Bool
  qp_resolution_scale : Int
  qp_burn_metadata : Bool
  qp_metadata_fontsize : Int
  qp_progress : ℚ
  qp_is_rendering : Bool
  qp_camera_ranges : List (String × Int × Int)
  qp_include_scene_name : Bool
  qp_include_camera : Bool
  qp_full_scene_name : Bool
deriving DecidableEq

/-- The host services `QUICKPREVIEW_OT_render.execute` and the path
helpers call out to, supplied as oracles: `bpy.data.is_saved`,
`bpy.data.objects` (object names), timer registration success, whether
`bpy.ops.render.opengl` completes without raising, the audio-source
scan, the filesystem, `bpy.path.basename(bpy.data.filepath)`, the
default output folder computation and `bpy.path.abspath`. -/
structure Env where
  is_saved : Bool
  objects : List String
  timerOk : Bool
  renderOk : Bool
  has_vse_audio : Bool
  has_scene_audio : Bool
  exists_dir : String → Bool
  listdir : String → List String
  glob : String → List String
  blend_basename : String
  default_folder : String
  abspath : String → String

/-! ### `store_original_settings` / `restore_original_settings`
(PreviewBuddy.py lines 79-273) -/

/-- The settings dictionary written by `store_original_settings`.  Every
key is always written (the `hasattr` guards hold, see above), so the
dictionary is a total record; `camera` holds the camera object's name
or the string `"None"`. -/
structure Backup where
  frame_start : Int
  frame_end : Int
  camera : String
  fps : Int
  resolution_percentage : Int
  filepath : String
  file_format : String
  color_mode : String
  color_depth : String
  compression : Int
  use_stamp : Bool
  use_stamp_frame : Bool
  use_stamp_frame_range : Bool
  use_stamp_camera : Bool
  use_stamp_lens : Bool
  use_stamp_scene : Bool
  stamp_font_size : Int
  ffmpeg_format : String
  ffmpeg_codec : String
  ffmpeg_audio_codec : String
  ffmpeg_constant_rate_factor : String
  ffmpeg_ffmpeg_preset : String
  ffmpeg_gopsize : Int
  ffmpeg_use_autosplit : Bool
  ffmpeg_audio_channels : Int
  ffmpeg_audio_bitrate : Int
  audio_mixrate : Int
  use_sequencer : Bool
  use_simplify : Bool
deriving DecidableEq

/-- `store_original_settings(context)` (lines 79-156): capture the
current settings.  The on-disk JSON backup file it also writes is
tracked by the `backupWritten` flag of the operator outcome. -/
def store_original_settings (s : Scene) : Backup :=
  { frame_start := s.frame_start
    frame_end := s.frame_end
    camera := match s.camera with | some c => c | none => "None"
    fps := s.render.fps
    resolution_percentage := s.render.resolution_percentage
    filepath := s.render.filepath
    file_format := s.render.file_format
    color_mode := s.render.color_mode
    color_depth := s.render.color_depth
    compression := s.render.compression
    use_stamp := s.render.use_stamp
    use_stamp_frame := s.render.use_stamp_frame
    use_stamp_frame_range := s.render.use_stamp_frame_range
    use_stamp_camera := s.render.use_stamp_camera
    use_stamp_lens := s.render.use_stamp_lens
    use_stamp_scene := s.render.use_stamp_scene
    stamp_font_size := s.render.stamp_font_size
    ffmpeg_format := s.render.ffmpeg_format
    ffmpeg_codec := s.render.ffmpeg_codec
    ffmpeg_audio_codec := s.render.ffmpeg_audio_codec
    ffmpeg_constant_rate_factor := s.render.ffmpeg_constant_rate_factor
    ffmpeg_ffmpeg_preset := s.render.ffmpeg_ffmpeg_preset
    ffmpeg_gopsize := s.render.ffmpeg_gopsize
    ffmpeg_use_autosplit := s.render.ffmpeg_use_autosplit
    ffmpeg_audio_channels := s.render.ffmpeg_audio_channels
    ffmpeg_audio_bitrate := s.render.ffmpeg_audio_bitrate
    audio_mixrate := s.render.audio_mixrate
    use_sequencer := s.render.use_sequencer
    use_simplify := s.render.use_simplify }

/-- `restore_original_settings(context, settings)` (lines 158-273).
Returns the restored scene and the boolean result (`True` iff the
`errors` list stayed empty; the only error source, absent an exception,
is a backed-up camera name that no longer exists in
`bpy.data.objects`).  The source first maps
`ffmpeg_constant_rate_factor` through the `'15'/'23'/'28'` table (the
stored value is a string, so `isinstance(..., (int, str))` holds) and
then overwrites it again with the raw stored value at line 237; we
perform both writes in order. -/
def restore_original_settings (objects : List String) (b : Backup) (s : Scene) :
    Scene × Bool :=
  let crf0 :=
    if b.ffmpeg_constant_rate_factor = "15" then "HIGH"
    else if b.ffmpeg_constant_rate_factor = "23" then "MEDIUM"
    else if b.ffmpeg_constant_rate_factor = "28" then "LOW"
    else "MEDIUM"
  let r1 := { s.render with ffmpeg_constant_rate_factor := crf0 }
  -- `if settings['camera'] != "None": if settings['camera'] in bpy.data.objects: …`
  let cam :=
    if b.camera = "None" then (s.camera, true)
    else if b.camera ∈ objects then (some b.camera, true)
    else (s.camera, false)
  let r2 :=
    { r1 with
      fps := b.fps
      resolution_percentage := b.resolution_percentage
      filepath := b.filepath
      file_format := b.file_format
      color_mode := b.color_mode
      color_depth := b.color_depth
      compression := b.compression
      use_stamp := b.use_stamp
      use_stamp_frame := b.use_stamp_frame
      use_stamp_frame_range := b.use_stamp_frame_range
      use_stamp_camera := b.use_stamp_camera
      use_stamp_lens := b.use_stamp_lens
      use_stamp_scene := b.use_stamp_scene
      stamp_font_size := b.stamp_font_size
      ffmpeg_format := b.ffmpeg_format
      ffmpeg_codec := b.ffmpeg_codec
      ffmpeg_audio_codec := b.ffmpeg_audio_codec
      ffmpeg_constant_rate_factor := b.ffmpeg_constant_rate_factor
      ffmpeg_ffmpeg_preset := b.ffmpeg_ffmpeg_preset
      ffmpeg_gopsize := b.ffmpeg_gopsize
      ffmpeg_use_autosplit := b.ffmpeg_use_autosplit
      ffmpeg_audio_channels := b.ffmpeg_audio_channels
      ffmpeg_audio_bitrate := b.ffmpeg_audio_bitrate
      audio_mixrate := b.audio_mixrate
      use_sequencer := b.use_sequencer
      use_simplify := b.use_simplify }
  ({ s with
       frame_start := b.frame_start
       frame_end := b.frame_end
       camera := cam.1
       render := r2 },
   cam.2)

/-! ### `get_scene_name` and `update_output_path`
(PreviewBuddy.py lines 313-332 and 467-551) -/

/-- `re.sub(r'[_-]?v\d+$', '', scene_name)` (line 325): strip a
trailing `v<digits>` with an optional single `_` or `-` separator. -/
def stripVersionSuffix (cs : List Char) : List Char :=
  let r := cs.reverse
  let ds := r.takeWhile isDigitChar
  if ds.isEmpty then cs
  else
    match r.drop ds.length with
    | 'v' :: rest =>
      (match rest with
       | c :: t => if c = '_' ∨ c = '-' then t.reverse else rest.reverse
       | [] => [])
    | _ => cs

/-- `get_scene_name()` (lines 313-332): the blend file's basename
without extension, with the trailing version suffix removed unless
`quickpreview_full_scene_name` is set; `"untitled"` when unsaved. -/
def get_scene_name (e : Env) (full : Bool) : String :=
  if e.is_saved then
    let scene_name := (splitext e.blend_basename).1
    if full then scene_name else String.mk (stripVersionSuffix scene_name.toList)
  else "untitled"

/-- The `parts` list joined with underscores (lines 479-499): optional
scene name, optional camera name, and the `f"{start:03d}-{end:03d}"`
frame-range tag. -/
def buildBasename (e : Env) (s : Scene) : String :=
  let parts :=
    (if s.qp_include_scene_name then [get_scene_name e s.qp_full_scene_name] else [])
    ++ (if s.qp_include_camera && (s.qp_camera != "VIEWPORT") then [s.qp_camera] else [])
    ++ [pad3int s.qp_frame_start ++ "-" ++ pad3int s.qp_frame_end]
  String.intercalate "_" parts

/-- The output folder selection (lines 502-516): keep the directory of
the existing path when it is nonempty and exists on disk, otherwise the
default previews folder. -/
def outputFolderOf (e : Env) (s : Scene) : String :=
  let current := s.qp_output_path
  let d := pathDirname (e.abspath current)
  let f0 := if (current != "") && (pathDirname current != "") && e.exists_dir d
            then d else ""
  if f0 = "" then e.default_folder else f0

/-- The extension table (lines 519-525); everything that is not one of
the three explicit formats keeps the `.mov` default. -/
def extensionOf (fmt : String) : String :=
  if fmt = "MP4_H264" then ".mp4"
  else if fmt = "PNG_SEQ" then ".png"
  else if fmt = "JPEG_SEQ" then ".jpg"
  else ".mov"

/-- The generated file-name part of the output path (lines 527-551):
image-sequence formats get the versioned (or plain) directory plus a
`####` frame placeholder and no extension; video formats get `_v001`
plus the extension in incremental mode, or just the extension. -/
def outputFileOf (basename_ fmt mode : String) : String :=
  if fmt = "PNG_SEQ" || fmt = "JPEG_SEQ" then
    if mode = "INCREMENTAL" then
      basename_ ++ "_v001/" ++ basename_ ++ "_v001_####"
    else
      basename_ ++ "/" ++ basename_ ++ "_####"
  else
    if mode = "INCREMENTAL" then basename_ ++ "_v001" ++ extensionOf fmt
    else basename_ ++ extensionOf fmt

/-- `update_output_path(self, context)` (lines 467-551).  `manual`
models `self.is_path_manually_edited` on the caller (the operator's
dummy self passes `False`; property-update callbacks have no such
attribute, which also regenerates the path).  The function only
rewrites `quickpreview_output_path`. -/
def update_output_path (e : Env) (manual : Bool) (s : Scene) : Scene :=
  if manual then s
  else
    { s with
        qp_output_path :=
          pathJoin (outputFolderOf e s)
            (outputFileOf (buildBasename e s) s.qp_output_format s.qp_save_mode) }

/-! ### `QUICKPREVIEW_OT_render.execute` (PreviewBuddy.py lines 686-971)

The `try` body is split into the stages below, in source order.  All
branch-heavy string computation lives in `String`-valued helpers so
each scene-updating stage stays a single record write. -/

/-- Lines 703-704: initialise progress tracking. -/
def stageInit (s : Scene) : Scene :=
  { s with qp_progress := 0, qp_is_rendering := true }

/-- Line 718: apply the user's Simplify toggle. -/
def stageSimplify (s : Scene) : Scene :=
  { s with render := { s.render with use_simplify := s.qp_use_simplify } }

/-- Lines 733-759: in incremental mode, when the filename carries the
`_v001` template (or no `_v` at all), replace the version with the next
free one found by `get_next_version_number`. -/
def incrementalInitPath (env : Env) (mode init_path : String) : String :=
  if mode = "INCREMENTAL" then
    let directory := pathDirname init_path
    let filename := pathBasename init_path
    let extension := (splitext filename).2
    if strContains "_v001" filename || !(strContains "_v" filename) then
      let basename_ :=
        if strContains "_v" filename then takeBeforeFirst "_v" filename
        else (splitext filename).1
      let next_version_path := pathJoin directory (basename_ ++ "_v001" ++ extension)
      let nv := get_next_version_number next_version_path extension
        (if env.exists_dir directory then some (env.listdir directory) else none)
      pathJoin directory (basename_ ++ "_v" ++ pad3nat nv ++ extension)
    else init_path
  else init_path

/-- Lines 720-731, scene part: when `bpy.path.abspath` of the stored
output path is empty, `update_output_path` regenerates it (with the
dummy self whose `is_path_manually_edited` is `False`); only
`quickpreview_output_path` can change. -/
def stagePathScene (env : Env) (s : Scene) : Scene :=
  if env.abspath s.qp_output_path = "" then update_output_path env false s else s

/-- Lines 720-731, path part: the `init_path` value after the
regeneration step. -/
def stagePathInit (env : Env) (s : Scene) : String :=
  if env.abspath s.qp_output_path = "" then
    env.abspath (update_output_path env false s).qp_output_path
  else env.abspath s.qp_output_path

/-- Lines 720-770: the final `full_path` — the initial path after the
incremental version bump. -/
def stageFullPath (env : Env) (s : Scene) : String :=
  incrementalInitPath env (stagePathScene env s).qp_save_mode (stagePathInit env s)

/-- Lines 793-821: for an incremental image sequence, scan the glob
`<base>_v*_0001.*` and bump past the highest `_v(\d+)_` version found
(only when one at least as large as the current one exists). -/
def seqBaseFilename (env : Env) (mode full_path : String) : String :=
  let output_dir := pathDirname full_path
  let base_filename := (splitext (pathBasename full_path)).1
  if mode = "INCREMENTAL" then
    match searchVNum base_filename.toList with
    | some iv =>
      let base_name := String.mk (base_filename.toList.take iv.1)
      let existing := env.glob (pathJoin output_dir (base_name ++ "_v*_0001.*"))
      if !existing.isEmpty then
        let highest := existing.foldl
          (fun acc f =>
            match searchVNumU (pathBasename f).toList with
            | some v => Nat.max acc v
            | none => acc) 0
        if highest ≥ iv.2 then base_name ++ "_v" ++ pad3nat (highest + 1)
        else base_filename
      else base_filename
    | none => base_filename
  else base_filename

/-- Lines 776-782: pick the image format (JPEG also takes the quality
setting along). -/
def stageFormatImage (s0 : Scene) : Scene :=
  if s0.qp_output_format = "PNG_SEQ" then
    { s0 with render := { s0.render with file_format := "PNG" } }
  else
    { s0 with render := { s0.render with
        file_format := "JPEG", quality := s0.qp_image_quality } }

/-- Lines 776-827, image-sequence branch: switch the image format and
rewrite `render.filepath` to `<output_dir>/<base>_` (the host appends
the frame number and extension). -/
def stageFormatSeq (env : Env) (s0 : Scene) (full_path : String) : Scene :=
  { stageFormatImage s0 with render := { (stageFormatImage s0).render with
      filepath := pathJoin (pathDirname full_path)
        (seqBaseFilename env (stageFormatImage s0).qp_save_mode full_path ++ "_") } }

/-- Lines 832-838: the FFMPEG container/codec pair. -/
def stageFormatCodec (s1 : Scene) : Scene :=
  if s1.qp_output_format = "MP4_H264" then
    { s1 with render := { s1.render with
        ffmpeg_format := "MPEG4", ffmpeg_codec := "H264" } }
  else
    { s1 with render := { s1.render with
        ffmpeg_format := "QUICKTIME", ffmpeg_codec := "H264" } }

/-- Lines 840-846: the constant-rate factor from the quality enum. -/
def stageFormatCRF (s2 : Scene) : Scene :=
  if s2.qp_video_quality = "HIGH" then
    { s2 with render := { s2.render with ffmpeg_constant_rate_factor := "HIGH" } }
  else if s2.qp_video_quality = "MEDIUM" then
    { s2 with render := { s2.render with ffmpeg_constant_rate_factor := "MEDIUM" } }
  else
    { s2 with render := { s2.render with ffmpeg_constant_rate_factor := "LOW" } }

/-- Lines 829-846, video branch: FFMPEG file format, then codec and
constant-rate factor. -/
def stageFormatVideo (s0 : Scene) : Scene :=
  stageFormatCRF (stageFormatCodec
    { s0 with render := { s0.render with file_format := "FFMPEG" } })

/-- Lines 772-846: set `render.filepath` to the full path, then the
format block — image sequences switch the image format (JPEG also sets
the quality) and rewrite the filepath to `<base>_` (the host appends
frame number and extension); video formats select FFMPEG with the
H.264 codec and the constant-rate factor from the quality enum. -/
def stageFormat (env : Env) (s : Scene) (full_path : String) : Scene :=
  if s.qp_output_format = "PNG_SEQ" || s.qp_output_format = "JPEG_SEQ" then
    stageFormatSeq env
      { s with render := { s.render with filepath := full_path } } full_path
  else
    stageFormatVideo
      { s with render := { s.render with filepath := full_path } }

/-- Lines 848-849: apply the preview frame range to the scene. -/
def stageFrame (s : Scene) : Scene :=
  { s with frame_start := s.qp_frame_start, frame_end := s.qp_frame_end }

/-- Lines 853-854: apply the preview camera when it names an existing
object and is not the `VIEWPORT` pseudo-camera. -/
def stageCamera (env : Env) (s : Scene) : Scene :=
  if (s.qp_camera != "VIEWPORT") && s.qp_camera ∈ env.objects then
    { s with camera := some s.qp_camera }
  else s

/-- Lines 860-862: the FPS override. -/
def stageOverrideFps (s : Scene) : Scene :=
  if s.qp_override_fps
  then { s with render := { s.render with fps := s.qp_fps } } else s

/-- Lines 864-866: the resolution-scale override. -/
def stageOverrideRes (s1 : Scene) : Scene :=
  if s1.qp_override_resolution_scale then
    { s1 with render := { s1.render with
        resolution_percentage := s1.qp_resolution_scale } }
  else s1

/-- Lines 860-866: FPS and resolution-scale overrides. -/
def stageOverrides (s : Scene) : Scene := stageOverrideRes (stageOverrideFps s)

/-- Lines 870-889: the metadata burn-in block — with burn enabled, six
stamp flags are switched on, seven others off, and the font size set;
otherwise only `use_stamp` is switched off. -/
def stageStamps (s : Scene) : Scene :=
  if s.qp_burn_metadata then
    { s with render := { s.render with
        use_stamp := true
        use_stamp_frame := true
        use_stamp_frame_range := true
        use_stamp_camera := true
        use_stamp_lens := true
        use_stamp_scene := true
        use_stamp_date := false
        use_stamp_time := false
        use_stamp_render_time := false
        use_stamp_memory := false
        use_stamp_hostname := false
        use_stamp_marker := false
        use_stamp_filename := false
        stamp_font_size := s.qp_metadata_fontsize } }
  else
    { s with render := { s.render with use_stamp := false } }

/-- Lines 893-916: the audio codec is set to AAC (each of the three
audio branches re-assigns the same value before invoking
`bpy.ops.render.opengl`). -/
def stageAudio (s : Scene) : Scene :=
  { s with render := { s.render with ffmpeg_audio_codec := "AAC" } }

/-- All scene mutations of the `try` body, in source order, up to and
including the point where `bpy.ops.render.opengl(animation=True)` runs. -/
def renderMutations (env : Env) (s : Scene) : Scene :=
  stageAudio (stageStamps (stageOverrides (stageCamera env (stageFrame
    (stageFormat env (stagePathScene env (stageSimplify (stageInit s)))
      (stageFullPath env (stageSimplify (stageInit s))))))))

/-- Outcome of the `try`/`except` part of `execute` (before `finally`). -/
structure TryResult where
  scene : Scene
  result : String
  errorReported : Bool
deriving DecidableEq

/-- Lines 701-939: the `try` body followed by the `except` handler.
`env.renderOk` models whether `bpy.ops.render.opengl` completes; on
success progress is set to `1.0` and `{'FINISHED'}` returned, on an
exception the handler reports an error, resets progress to `0.0` and
returns `{'CANCELLED'}`. -/
def renderTry (env : Env) (s : Scene) : TryResult :=
  if env.renderOk then
    { scene := { renderMutations env s with qp_progress := 1 },
      result := "FINISHED", errorReported := false }
  else
    { scene := { renderMutations env s with qp_progress := 0 },
      result := "CANCELLED", errorReported := true }

/-- Observable outcome of one `quickpreview.render` run. -/
structure RenderOutcome where
  scene : Scene
  result : String
  backupWritten : Bool
  backupKept : Bool
  timerRegistered : Bool
  restoreOk : Bool
  errorReported : Bool
  warningReported : Bool
deriving DecidableEq

/-- The `finally` block's settings restoration (lines 954-956): the
rendering flag is cleared on the scene the `try`/`except` part
produced, and `restore_original_settings` runs on the backup taken at
the start. -/
def renderFinally (env : Env) (s : Scene) : Scene × Bool :=
  restore_original_settings env.objects (store_original_settings s)
    { (renderTry env s).scene with qp_is_rendering := false }

/-- `QUICKPREVIEW_OT_render.execute(self, context)` (lines 686-971).
The unsaved-file guard returns `{'CANCELLED'}` with an error report
before anything else happens.  Otherwise the settings are backed up,
the `try`/`except` body runs, and the `finally` block clears the
rendering flag, unregisters the timer and restores the original
settings; the on-disk backup file is deleted exactly when restoration
reported success, and a warning is reported otherwise. -/
def QUICKPREVIEW_OT_render_execute (env : Env) (s : Scene) : RenderOutcome :=
  if env.is_saved then
    { scene := (renderFinally env s).1
      result := (renderTry env s).result
      backupWritten := true
      backupKept := !(renderFinally env s).2
      timerRegistered := env.timerOk
      restoreOk := (renderFinally env s).2
      errorReported := (renderTry env s).errorReported
      warningReported := !(renderFinally env s).2 }
  else
    { scene := s
      result := "CANCELLED"
      backupWritten := false
      backupKept := false
      timerRegistered := false
      restoreOk := true
      errorReported := true
      warningReported := false }

/-! ### `update_render_progress` (PreviewBuddy.py lines 625-662) -/

/-- `total_frames = scene.frame_end - scene.frame_start + 1` (line 639). -/
def total_frames (s : Scene) : Int := s.frame_end - s.frame_start + 1

/-- `progress = (current_frame - scene.frame_start) / total_frames`
(line 643), as exact rational arithmetic. -/
def progress_raw (s : Scene) : ℚ :=
  ((s.frame_current - s.frame_start : Int) : ℚ) / ((total_frames s : Int) : ℚ)

/-- The timer callback: `none` (stop) when rendering has finished,
otherwise the clamped progress update and a `0.1`-second reschedule.
The progress write happens only when `frame_end > frame_start`. -/
def update_render_progress (s : Scene) : Scene × Option ℚ :=
  if s.qp_is_rendering then
    (if s.frame_end > s.frame_start then
       { s with qp_progress := max 0 (min 1 (progress_raw s)) }
     else s,
     some (1 / 10))
  else (s, none)

/-! ### Per-camera frame-range memory (PreviewBuddy.py lines 334-402)

The global `updating` re-entrancy flag is threaded explicitly; both
functions clear it in their `finally` blocks. -/

/-- `save_camera_frame_range(context, camera_name)` (lines 367-402):
no-op for the `VIEWPORT` pseudo-camera, otherwise overwrite this
camera's entry with the current preview range and clear the flag. -/
def save_camera_frame_range (c : String) (s : Scene) (updating : Bool) :
    Scene × Bool :=
  if c = "VIEWPORT" then (s, updating)
  else
    let data := jset c (s.qp_frame_start, s.qp_frame_end) s.qp_camera_ranges
    ({ s with qp_camera_ranges := data }, false)

/-- `load_camera_frame_range(context, camera_name)` (lines 334-365):
return early while `updating` is set or for `VIEWPORT`; otherwise copy
the stored range, when present, into the preview range properties. -/
def load_camera_frame_range (c : String) (s : Scene) (updating : Bool) :
    Scene × Bool :=
  if updating then (s, updating)
  else if c = "VIEWPORT" then (s, updating)
  else
    match jget c s.qp_camera_ranges with
    | some r => ({ s with qp_frame_start := r.1, qp_frame_end := r.2 }, false)
    | none => (s, false)

/-! ### `QUICKPREVIEW_OT_delete_camera_range.execute`
(PreviewBuddy.py lines 1234-1250) -/

/-- Outcome of one delete-camera-range run. -/
structure DeleteOutcome where
  ranges : List (String × Int × Int)
  warned : Bool
  infoReported : Bool
  result : String
deriving DecidableEq

/-- `execute`: remove the camera's entry (and reserialise) when it
exists, reporting info; otherwise report a warning and leave the stored
property untouched.  Both paths return `{'FINISHED'}`.  (A parse
failure makes `data` empty, which takes the same warning path and also
leaves the property untouched.) -/
def QUICKPREVIEW_OT_delete_camera_range_execute (camera_name : String)
    (ranges : List (String × Int × Int)) : DeleteOutcome :=
  if jmem camera_name ranges then
    { ranges := jdel camera_name ranges
      warned := false
      infoReported := true
      result := "FINISHED" }
  else
    { ranges := ranges
      warned := true
      infoReported := false
      result := "FINISHED" }

/-! ### `QUICKPREVIEW_OT_process_queue.execute`
(PreviewBuddy.py lines 1334-1376)

The loop applies each enabled item's settings to the scene and invokes
`bpy.ops.quickpreview.render('INVOKE_DEFAULT')`.  That operator call —
together with the property-update callbacks the host fires while the
item's `quickpreview_*` properties are assigned — is abstracted as the
`render : Scene → Scene × Bool` parameter (the boolean models
`'FINISHED' in result`); neither the render operator nor any update
callback ever touches `quickpreview_queue`, so the queue lives outside
`Scene` and the abstract `render` cannot reach it. -/

/-- One element of the `quickpreview_queue` collection property. -/
structure QueueItem where
  camera_name : String
  frame_start : Int
  frame_end : Int
  output_path : String
  enabled : Bool
  status : String
deriving DecidableEq

/-- Lines 1360-1363: copy the item's settings into the scene
properties (the last one, `quickpreview_output_path`, has no update
callback, so it keeps exactly the item's value). -/
def applyQueueItemSettings (it : QueueItem) (s : Scene) : Scene :=
  { s with
      qp_camera := it.camera_name
      qp_frame_start := it.frame_start
      qp_frame_end := it.frame_end
      qp_output_path := it.output_path }

/-- Lines 1353-1367: the processing loop.  Disabled items are skipped
untouched; a processed item's status is set to `PROCESSING` and then to
`COMPLETED` or `FAILED` from the render result. -/
def processQueueItems (render : Scene → Scene × Bool) :
    List QueueItem → Scene → List QueueItem × Scene
  | [], s => ([], s)
  | it :: rest, s =>
    if it.enabled then
      let it1 := { it with status := "PROCESSING" }
      let r := render (applyQueueItemSettings it1 s)
      let it2 := { it1 with status := if r.2 then "COMPLETED" else "FAILED" }
      let next := processQueueItems render rest r.1
      (it2 :: next.1, next.2)
    else
      let next := processQueueItems render rest s
      (it :: next.1, next.2)

/-- The scene state reached after processing a list of items (the
enabled ones thread through `render`, the disabled ones change
nothing). -/
def sceneAfterItems (render : Scene → Scene × Bool)
    (items : List QueueItem) (s : Scene) : Scene :=
  items.foldl
    (fun st it =>
      if it.enabled then
        (render (applyQueueItemSettings { it with status := "PROCESSING" } st)).1
      else st) s

/-- Outcome of one process-queue run. -/
structure QueueOutcome where
  queue : List QueueItem
  scene : Scene
  result : String
  warningReported : Bool
deriving DecidableEq

/-- `QUICKPREVIEW_OT_process_queue.execute` (lines 1340-1376): warn and
return `{'CANCELLED'}` on an empty queue; otherwise save
`scene.camera`, the scene frame range and `quickpreview_output_path`,
run the loop, restore those four values and return `{'FINISHED'}`. -/
def QUICKPREVIEW_OT_process_queue_execute (render : Scene → Scene × Bool)
    (queue : List QueueItem) (s : Scene) : QueueOutcome :=
  if queue.isEmpty then
    { queue := queue, scene := s, result := "CANCELLED", warningReported := true }
  else
    let r := processQueueItems render queue s
    { queue := r.1
      scene := { r.2 with
                   camera := s.camera
                   frame_start := s.frame_start
                   frame_end := s.frame_end
                   qp_output_path := s.qp_output_path }
      result := "FINISHED"
      warningReported := false }

/-! ### Helper lemmas: the JSON dictionary operations -/

theorem jget_jset_self {α : Type} (k : String) (v : α) :
    ∀ l : List (String × α), jget k (jset k v l) = some v := by
  intro l
  induction l with
  | nil => simp [jget, jset]
  | cons e rest ih =>
    obtain ⟨k', v'⟩ := e
    by_cases h : k' = k
    · simp [jset, jget, h]
    · simp [jset, jget, h, ih]

theorem jget_jdel_self {α : Type} (k : String) :
    ∀ l : List (String × α), jget k (jdel k l) = none := by
  intro l
  induction l with
  | nil => simp [jget, jdel]
  | cons e rest ih =>
    obtain ⟨k', v'⟩ := e
    by_cases h : k' = k
    · simpa [jdel, List.filter_cons, h] using ih
    · simpa [jdel, List.filter_cons, h, jget] using ih

theorem jget_jdel_ne {α : Type} (k k' : String) (hne : k' ≠ k) :
    ∀ l : List (String × α), jget k' (jdel k l) = jget k' l := by
  intro l
  induction l with
  | nil => rfl
  | cons e rest ih =>
    obtain ⟨k'', v''⟩ := e
    by_cases h : k'' = k
    · subst h
      have h2 : ¬(k'' = k') := fun hx => hne hx.symm
      rw [show jdel k'' ((k'', v'') :: rest) = jdel k'' rest by
            simp [jdel, List.filter_cons]]
      rw [ih]
      simp [jget, h2]
    · rw [show jdel k ((k'', v'') :: rest) = (k'', v'') :: jdel k rest by
            simp [jdel, List.filter_cons, h]]
      by_cases h3 : k'' = k'
      · simp [jget, h3]
      · simp [jget, h3, ih]

/-! ### Helper lemmas: maxima of version lists -/

theorem natMax_left (a b : Nat) : a ≤ Nat.max a b := Nat.le_max_left a b

theorem natMax_right (a b : Nat) : b ≤ Nat.max a b := Nat.le_max_right a b

theorem natMax_choice (a b : Nat) : Nat.max a b = a ∨ Nat.max a b = b := by
  rcases Nat.le_total a b with h | h
  · exact Or.inr (Nat.max_eq_right h)
  · exact Or.inl (Nat.max_eq_left h)

theorem le_foldl_max_init : ∀ (l : List Nat) (a : Nat), a ≤ l.foldl Nat.max a := by
  intro l
  induction l with
  | nil => intro a; exact le_rfl
  | cons b t ih =>
    intro a
    rw [List.foldl_cons]
    exact le_trans (natMax_left a b) (ih (Nat.max a b))

theorem foldl_max_le : ∀ (l : List Nat) (a x : Nat), x ∈ l → x ≤ l.foldl Nat.max a := by
  intro l
  induction l with
  | nil => intro a x hx; cases hx
  | cons b t ih =>
    intro a x hx
    rw [List.foldl_cons]
    rcases List.mem_cons.mp hx with h | h
    · subst h
      exact le_trans (natMax_right a x) (le_foldl_max_init t (Nat.max a x))
    · exact ih (Nat.max a b) x h

theorem foldl_max_cases : ∀ (l : List Nat) (a : Nat),
    l.foldl Nat.max a = a ∨ l.foldl Nat.max a ∈ l := by
  intro l
  induction l with
  | nil => intro a; exact Or.inl rfl
  | cons b t ih =>
    intro a
    rw [List.foldl_cons]
    rcases ih (Nat.max a b) with h | h
    · rcases natMax_choice a b with hm | hm
      · exact Or.inl (by rw [h, hm])
      · exact Or.inr (by rw [h, hm]; exact List.mem_cons_self b t)
    · exact Or.inr (List.mem_cons_of_mem b h)

/-! ### Helper lemmas: restoration undoes the mutations on every
backed-up field -/

/-- Restoring from the backup taken of scene `s` brings every stored
scene-level and render field back to the value it had in `s`, no matter
what scene `t` the operator body produced in the meantime; `.render`
comes out fully determined except for the two fields the backup never
captures (`quality` and the seven extra stamp flags, which keep `t`'s
values). -/
theorem restore_store_render (objects : List String) (s t : Scene) :
    (restore_original_settings objects (store_original_settings s) t).1.render =
      { s.render with
          quality := t.render.quality
          use_stamp_date := t.render.use_stamp_date
          use_stamp_time := t.render.use_stamp_time
          use_stamp_render_time := t.render.use_stamp_render_time
          use_stamp_memory := t.render.use_stamp_memory
          use_stamp_hostname := t.render.use_stamp_hostname
          use_stamp_marker := t.render.use_stamp_marker
          use_stamp_filename := t.render.use_stamp_filename } := rfl

theorem restore_store_frames (objects : List String) (s t : Scene) :
    (restore_original_settings objects (store_original_settings s) t).1.frame_start
        = s.frame_start ∧
    (restore_original_settings objects (store_original_settings s) t).1.frame_end
        = s.frame_end :=
  ⟨rfl, rfl⟩

/-- The camera is restored whenever `s` had one whose name is neither
the `"None"` sentinel nor missing from `bpy.data.objects`. -/
theorem restore_store_camera (objects : List String) (s t : Scene) (c : String)
    (hc : s.camera = some c) (hne : c ≠ "None") (hmem : c ∈ objects) :
    (restore_original_settings objects (store_original_settings s) t).1.camera
      = some c := by
  simp [restore_original_settings, store_original_settings, hc, hne, hmem]

/-- Restoration never touches the progress property. -/
theorem restore_qp_progress (objects : List String) (b : Backup) (t : Scene) :
    (restore_original_settings objects b t).1.qp_progress = t.qp_progress := rfl

/-- The boolean result of `restore_original_settings` is `False`
exactly when the backed-up camera name is a real name (not the `"None"`
sentinel) that no longer exists among the object names. -/
theorem restore_false_iff (objects : List String) (b : Backup) (t : Scene) :
    (restore_original_settings objects b t).2 = false ↔
      (b.camera ≠ "None" ∧ b.camera ∉ objects) := by
  unfold restore_original_settings
  split_ifs with h1 h2 <;> simp_all

/-! ### Helper lemmas: stage-wise preservation facts for the render
operator -/

theorem update_output_path_qp_frame (e : Env) (m : Bool) (s : Scene) :
    (update_output_path e m s).qp_frame_start = s.qp_frame_start ∧
    (update_output_path e m s).qp_frame_end = s.qp_frame_end := by
  unfold update_output_path; split <;> exact ⟨rfl, rfl⟩

theorem stagePathScene_qp_frame (env : Env) (s : Scene) :
    (stagePathScene env s).qp_frame_start = s.qp_frame_start ∧
    (stagePathScene env s).qp_frame_end = s.qp_frame_end := by
  unfold stagePathScene
  split
  · exact update_output_path_qp_frame env false s
  · exact ⟨rfl, rfl⟩

theorem stageFormatImage_qp_frame (s : Scene) :
    (stageFormatImage s).qp_frame_start = s.qp_frame_start ∧
    (stageFormatImage s).qp_frame_end = s.qp_frame_end := by
  unfold stageFormatImage; split <;> exact ⟨rfl, rfl⟩

theorem stageFormat_qp_frame (env : Env) (s : Scene) (p : String) :
    (stageFormat env s p).qp_frame_start = s.qp_frame_start ∧
    (stageFormat env s p).qp_frame_end = s.qp_frame_end := by
  unfold stageFormat stageFormatSeq stageFormatVideo stageFormatCRF stageFormatCodec
  split
  · exact stageFormatImage_qp_frame _
  · split_ifs <;> exact ⟨rfl, rfl⟩

theorem stageCamera_frames (env : Env) (s : Scene) :
    (stageCamera env s).frame_start = s.frame_start ∧
    (stageCamera env s).frame_end = s.frame_end := by
  unfold stageCamera; split <;> exact ⟨rfl, rfl⟩

theorem stageOverrides_frames (s : Scene) :
    (stageOverrides s).frame_start = s.frame_start ∧
    (stageOverrides s).frame_end = s.frame_end := by
  unfold stageOverrides stageOverrideRes stageOverrideFps
  split_ifs <;> exact ⟨rfl, rfl⟩

theorem stageStamps_frames (s : Scene) :
    (stageStamps s).frame_start = s.frame_start ∧
    (stageStamps s).frame_end = s.frame_end := by
  unfold stageStamps; split <;> exact ⟨rfl, rfl⟩

theorem stageAudio_frames (s : Scene) :
    (stageAudio s).frame_start = s.frame_start ∧
    (stageAudio s).frame_end = s.frame_end := ⟨rfl, rfl⟩

theorem stageFrame_frames (s : Scene) :
    (stageFrame s).frame_start = s.qp_frame_start ∧
    (stageFrame s).frame_end = s.qp_frame_end := ⟨rfl, rfl⟩

/-- The frame range applied by `renderMutations` is exactly the
preview range stored in the `quickpreview_*` properties before the
operator started. -/
theorem renderMutations_frames (env : Env) (s : Scene) :
    (renderMutations env s).frame_start = s.qp_frame_start ∧
    (renderMutations env s).frame_end = s.qp_frame_end := by
  unfold renderMutations
  constructor
  · rw [(stageAudio_frames _).1, (stageStamps_frames _).1, (stageOverrides_frames _).1,
       (stageCamera_frames _ _).1, (stageFrame_frames _).1,
       (stageFormat_qp_frame _ _ _).1, (stagePathScene_qp_frame _ _).1]
    rfl
  · rw [(stageAudio_frames _).2, (stageStamps_frames _).2, (stageOverrides_frames _).2,
       (stageCamera_frames _ _).2, (stageFrame_frames _).2,
       (stageFormat_qp_frame _ _ _).2, (stagePathScene_qp_frame _ _).2]
    rfl

/-! ### Helper lemmas: the queue-processing loop -/

theorem processQueueItems_length (render : Scene → Scene × Bool) :
    ∀ (items : List QueueItem) (s : Scene),
      (processQueueItems render items s).1.length = items.length := by
  intro items
  induction items with
  | nil => intro s; rfl
  | cons it rest ih =>
    intro s
    by_cases h : it.enabled
    · simp [processQueueItems, h, ih]
    · simp [processQueueItems, h, ih]

theorem processQueueItems_snd (render : Scene → Scene × Bool) :
    ∀ (items : List QueueItem) (s : Scene),
      (processQueueItems render items s).2 = sceneAfterItems render items s := by
  intro items
  induction items with
  | nil => intro s; rfl
  | cons it rest ih =>
    intro s
    by_cases h : it.enabled
    · simp [processQueueItems, h, sceneAfterItems, ih]
    · simp [processQueueItems, h, sceneAfterItems, ih]

/-- Position `i` of the processed queue: disabled items come back
unchanged; an enabled item's status records whether the render at the
scene state reached after the first `i` items returned `FINISHED`. -/
theorem processQueueItems_getElem (render : Scene → Scene × Bool) :
    ∀ (items : List QueueItem) (s : Scene) (i : Nat),
      (processQueueItems render items s).1[i]? =
        (items[i]?).map (fun it =>
          if it.enabled then
            { it with status :=
                if (render (applyQueueItemSettings { it with status := "PROCESSING" }
                      (sceneAfterItems render (items.take i) s))).2
                then "COMPLETED" else "FAILED" }
          else it) := by
  intro items
  induction items with
  | nil => intro s i; simp [processQueueItems]
  | cons it rest ih =>
    intro s i
    cases i with
    | zero =>
      by_cases he : it.enabled
      · simp [processQueueItems, he, sceneAfterItems]
      · simp [processQueueItems, he]
    | succ n =>
      by_cases he : it.enabled
      · rw [show processQueueItems render (it :: rest) s =
              ({ it with status :=
                   if (render (applyQueueItemSettings
                        { it with status := "PROCESSING" } s)).2
                   then "COMPLETED" else "FAILED" }
                :: (processQueueItems render rest
                     (render (applyQueueItemSettings
                       { it with status := "PROCESSING" } s)).1).1,
               (processQueueItems render rest
                 (render (applyQueueItemSettings
                   { it with status := "PROCESSING" } s)).1).2)
            from by simp only [processQueueItems]; rw [if_pos he]]
        have hsc : sceneAfterItems render (it :: List.take n rest) s =
            sceneAfterItems render (List.take n rest)
              (render (applyQueueItemSettings
                { it with status := "PROCESSING" } s)).1 := by
          simp only [sceneAfterItems, List.foldl_cons]
          rw [if_pos he]
        simp only [List.getElem?_cons_succ, List.take_succ_cons, hsc]
        exact ih (render (applyQueueItemSettings
          { it with status := "PROCESSING" } s)).1 n
      · rw [show processQueueItems render (it :: rest) s =
              (it :: (processQueueItems render rest s).1,
               (processQueueItems render rest s).2)
            from by simp only [processQueueItems]; rw [if_neg he]]
        have hsc : sceneAfterItems render (it :: List.take n rest) s =
            sceneAfterItems render (List.take n rest) s := by
          simp only [sceneAfterItems, List.foldl_cons]
          rw [if_neg he]
        simp only [List.getElem?_cons_succ, List.take_succ_cons, hsc]
        exact ih s n

/-- The progress value coming out of the `try`/`except` part is `1` on
success and `0` after the exception handler. -/
theorem renderTry_progress (env : Env) (s : Scene) :
    (renderTry env s).scene.qp_progress = if env.renderOk then (1 : ℚ) else 0 := by
  unfold renderTry; split <;> rfl

/-- The final progress value of a render run: untouched when the
unsaved-file guard fires, otherwise `1` or `0` with the render result
(restoration never touches it). -/
theorem render_execute_progress (env : Env) (s : Scene) :
    (QUICKPREVIEW_OT_render_execute env s).scene.qp_progress =
      if env.is_saved then (if env.renderOk then (1 : ℚ) else 0)
      else s.qp_progress := by
  unfold QUICKPREVIEW_OT_render_execute
  by_cases h : env.is_saved
  · simp only [h, if_true]
    show (renderFinally env s).1.qp_progress = _
    unfold renderFinally
    rw [restore_qp_progress]
    show (renderTry env s).scene.qp_progress = _
    rw [renderTry_progress]
  · simp only [h, if_false]
    rfl

/-! ### The claims -/

/-- Claim C2: for every camera name `c` other than `"VIEWPORT"` and
every pair of frame values, after `save_camera_frame_range` stores the
current preview range for `c`, a subsequent `load_camera_frame_range`
for `c` (on any scene carrying the saved ranges property) sets
`quickpreview_frame_start` and `quickpreview_frame_end` back to the
stored values: the per-camera memory round-trips through the JSON
scene property. -/
theorem camera_frame_range_roundtrip (c : String) (s s2 : Scene) (u : Bool)
    (hc : c ≠ "VIEWPORT")
    (h2 : s2.qp_camera_ranges = (save_camera_frame_range c s u).1.qp_camera_ranges) :
    (load_camera_frame_range c s2 (save_camera_frame_range c s u).2).1.qp_frame_start
        = s.qp_frame_start ∧
    (load_camera_frame_range c s2 (save_camera_frame_range c s u).2).1.qp_frame_end
        = s.qp_frame_end := by
  have hsave1 : (save_camera_frame_range c s u).1.qp_camera_ranges =
      jset c (s.qp_frame_start, s.qp_frame_end) s.qp_camera_ranges := by
    simp [save_camera_frame_range, hc]
  have hsave2 : (save_camera_frame_range c s u).2 = false := by
    simp [save_camera_frame_range, hc]
  have hget : jget c s2.qp_camera_ranges = some (s.qp_frame_start, s.qp_frame_end) := by
    rw [h2, hsave1]; exact jget_jset_self c _ _
  rw [hsave2]
  simp [load_camera_frame_range, hc, hget]

/-- Claim C3: `get_next_version_number` returns one plus the maximum
version among the directory's files matching `<base>_v<digits><ext>`
(the base extracted from the file's own `<base>_v<digits><ext>`
basename); it returns `1` when nothing matches, when the basename does
not carry the versioned pattern, or when the directory is missing, so
the result is always at least `1`. -/
theorem next_version_number_spec (fp ext : String) (files : List String) :
    1 ≤ get_next_version_number fp ext (some files) ∧
    1 ≤ get_next_version_number fp ext none ∧
    (extractBase ext.toList (pathBasename fp).toList = none →
       get_next_version_number fp ext (some files) = 1) ∧
    (∀ base, extractBase ext.toList (pathBasename fp).toList = some base →
       (∀ f ∈ files, ∀ d, versionOfName base ext.toList f.toList = some d →
          d < get_next_version_number fp ext (some files)) ∧
       (get_next_version_number fp ext (some files) = 1 ∨
        ∃ f ∈ files, versionOfName base ext.toList f.toList =
          some (get_next_version_number fp ext (some files) - 1))) := by
  rcases hE : extractBase ext.toList (pathBasename fp).toList with _ | base0
  · have hE2 : extractBase ext.data (pathBasename fp).data = none := hE
    refine ⟨?_, ?_, fun _ => ?_, fun base hbase => ?_⟩
    · simp [get_next_version_number, hE2]
    · simp [get_next_version_number, hE2]
    · simp [get_next_version_number, hE2]
    · cases hbase
  · have hE2 : extractBase ext.data (pathBasename fp).data = some base0 := hE
    rcases hv : files.filterMap
        (fun f => versionOfName base0 ext.toList f.toList) with _ | ⟨v, vs⟩
    · have hv2 : files.filterMap
          (fun f => versionOfName base0 ext.data f.data) = [] := hv
      have hval : get_next_version_number fp ext (some files) = 1 := by
        simp [get_next_version_number, hE2, hv2]
      refine ⟨by omega, by simp [get_next_version_number, hE2], fun hnone => ?_,
        fun base hbase => ?_⟩
      · cases hnone
      · obtain rfl : base0 = base := by injection hbase
        refine ⟨fun f hf d hd => ?_, Or.inl hval⟩
        have hdmem : d ∈ files.filterMap
            (fun g => versionOfName base0 ext.toList g.toList) :=
          List.mem_filterMap.mpr ⟨f, hf, hd⟩
        rw [hv] at hdmem
        cases hdmem
    · have hv2 : files.filterMap
          (fun f => versionOfName base0 ext.data f.data) = v :: vs := hv
      have hval : get_next_version_number fp ext (some files)
          = vs.foldl Nat.max v + 1 := by
        simp [get_next_version_number, hE2, hv2]
      refine ⟨by omega, by simp [get_next_version_number, hE2], fun hnone => ?_,
        fun base hbase => ?_⟩
      · cases hnone
      · obtain rfl : base0 = base := by injection hbase
        constructor
        · intro f hf d hd
          have hdmem : d ∈ files.filterMap
              (fun g => versionOfName base0 ext.toList g.toList) :=
            List.mem_filterMap.mpr ⟨f, hf, hd⟩
          rw [hv] at hdmem
          have hle : d ≤ vs.foldl Nat.max v := by
            rcases List.mem_cons.mp hdmem with h | h
            · subst h; exact le_foldl_max_init vs d
            · exact foldl_max_le vs v d h
          omega
        · right
          have hmem : vs.foldl Nat.max v ∈ files.filterMap
              (fun g => versionOfName base0 ext.toList g.toList) := by
            rw [hv]
            rcases foldl_max_cases vs v with h | h
            · rw [h]; exact List.mem_cons_self v vs
            · exact List.mem_cons_of_mem v h
          obtain ⟨f, hf, hfv⟩ := List.mem_filterMap.mp hmem
          exact ⟨f, hf, by rw [hval, hfv]; simp⟩

/-- Claim C4: `update_output_path` writes the joined folder and
generated file name, and the generated file name follows the save
mode: video formats get `_v001` plus the format's extension in
incremental mode and the bare extension in overwrite mode, and
image-sequence formats get the `<base>_v001/<base>_v001_####`
(incremental) or `<base>/<base>_####` (overwrite) shape with no
extension appended. -/
theorem update_output_path_spec (e : Env) (s : Scene) (b : String) :
    ((update_output_path e false s).qp_output_path =
      pathJoin (outputFolderOf e s)
        (outputFileOf (buildBasename e s) s.qp_output_format s.qp_save_mode)) ∧
    outputFileOf b "MP4_H264" "INCREMENTAL" = b ++ "_v001" ++ ".mp4" ∧
    outputFileOf b "MP4_H264" "OVERWRITE" = b ++ ".mp4" ∧
    outputFileOf b "MOV_H264" "INCREMENTAL" = b ++ "_v001" ++ ".mov" ∧
    outputFileOf b "MOV_H264" "OVERWRITE" = b ++ ".mov" ∧
    outputFileOf b "PNG_SEQ" "INCREMENTAL" = b ++ "_v001/" ++ b ++ "_v001_####" ∧
    outputFileOf b "PNG_SEQ" "OVERWRITE" = b ++ "/" ++ b ++ "_####" ∧
    outputFileOf b "JPEG_SEQ" "INCREMENTAL" = b ++ "_v001/" ++ b ++ "_v001_####" ∧
    outputFileOf b "JPEG_SEQ" "OVERWRITE" = b ++ "/" ++ b ++ "_####" :=
  ⟨rfl, rfl, rfl, rfl, rfl, rfl, rfl, rfl, rfl⟩

/-- Claim C6: the frame range is an inclusive interval — the render
operator's mutations set `scene.frame_start`/`scene.frame_end` to the
`quickpreview` preview range, and for `frame_end > frame_start` the
progress timer computes the total as `frame_end - frame_start + 1` and
the raw progress as `(frame_current - frame_start)` divided by that
total, storing the clamped value. -/
theorem render_frame_range_inclusive (env : Env) (s : Scene) :
    (renderMutations env s).frame_start = s.qp_frame_start ∧
    (renderMutations env s).frame_end = s.qp_frame_end ∧
    (s.frame_end > s.frame_start →
       total_frames s = s.frame_end - s.frame_start + 1 ∧
       progress_raw s = ((s.frame_current : ℚ) - (s.frame_start : ℚ)) /
         ((s.frame_end : ℚ) - (s.frame_start : ℚ) + 1) ∧
       (s.qp_is_rendering = true →
          (update_render_progress s).1.qp_progress =
            max 0 (min 1 (progress_raw s)))) := by
  refine ⟨(renderMutations_frames env s).1, (renderMutations_frames env s).2, ?_⟩
  intro hgt
  refine ⟨rfl, ?_, ?_⟩
  · unfold progress_raw total_frames
    push_cast
    ring
  · intro hr
    unfold update_render_progress
    rw [if_pos hr]
    show (if s.frame_end > s.frame_start then
            { s with qp_progress := max 0 (min 1 (progress_raw s)) }
          else s).qp_progress = max 0 (min 1 (progress_raw s))
    rw [if_pos hgt]

/-- Claim C8: with the Blender file never saved, `quickpreview.render`
reports an error and returns `{'CANCELLED'}` before backing anything
up, registering the timer, or touching any scene state. -/
theorem render_unsaved_guard (env : Env) (s : Scene) (h : env.is_saved = false) :
    QUICKPREVIEW_OT_render_execute env s =
      { scene := s, result := "CANCELLED", backupWritten := false,
        backupKept := false, timerRegistered := false, restoreOk := true,
        errorReported := true, warningReported := false } := by
  unfold QUICKPREVIEW_OT_render_execute
  rw [h]
  rfl

/-- Claim C10: `delete_camera_range` always returns `{'FINISHED'}`;
when the camera has a stored entry it removes exactly that entry
(every other camera's lookup is unchanged) without warning, and when
it has none it warns and leaves the stored ranges untouched. -/
theorem delete_camera_range_spec (c : String) (m : List (String × Int × Int)) :
    (QUICKPREVIEW_OT_delete_camera_range_execute c m).result = "FINISHED" ∧
    (jmem c m = true →
       jget c (QUICKPREVIEW_OT_delete_camera_range_execute c m).ranges = none ∧
       (∀ c', c' ≠ c →
          jget c' (QUICKPREVIEW_OT_delete_camera_range_execute c m).ranges
            = jget c' m) ∧
       (QUICKPREVIEW_OT_delete_camera_range_execute c m).warned = false) ∧
    (jmem c m = false →
       (QUICKPREVIEW_OT_delete_camera_range_execute c m).ranges = m ∧
       (QUICKPREVIEW_OT_delete_camera_range_execute c m).warned = true) := by
  refine ⟨?_, ?_, ?_⟩
  · unfold QUICKPREVIEW_OT_delete_camera_range_execute
    split <;> rfl
  · intro hm
    have hder : QUICKPREVIEW_OT_delete_camera_range_execute c m =
        { ranges := jdel c m, warned := false, infoReported := true,
          result := "FINISHED" } := by
      unfold QUICKPREVIEW_OT_delete_camera_range_execute
      rw [if_pos hm]
    rw [hder]
    exact ⟨jget_jdel_self c m, fun c' hc' => jget_jdel_ne c c' hc' m, rfl⟩
  · intro hm
    have hder : QUICKPREVIEW_OT_delete_camera_range_execute c m =
        { ranges := m, warned := true, infoReported := false,
          result := "FINISHED" } := by
      unfold QUICKPREVIEW_OT_delete_camera_range_execute
      rw [if_neg (by simp [hm])]
    rw [hder]
    exact ⟨rfl, rfl⟩

/-- Claim C1 (amended): every run of `quickpreview.render` restores
every *backed-up* global render setting to its pre-run value — the
scene frame range, fps, resolution percentage, render filepath, the
backed-up image settings (file format, color mode, color depth,
compression), the six backed-up metadata stamp flags with the stamp
font size, every FFMPEG setting, the audio mixrate, the sequencer flag
and `use_simplify` — and restores `scene.camera` whenever the scene had
a camera whose name is not the `"None"` sentinel and still exists among
the objects.  (The operator's mutations of `use_stamp_date/time/
render_time/memory/hostname/marker/filename` and of
`image_settings.quality` are *not* covered by the backup; see the
counterexample.) -/
theorem quickpreview_render_settings_restore (env : Env) (s : Scene) :
    ((QUICKPREVIEW_OT_render_execute env s).scene.frame_start = s.frame_start ∧
     (QUICKPREVIEW_OT_render_execute env s).scene.frame_end = s.frame_end ∧
     (QUICKPREVIEW_OT_render_execute env s).scene.render.fps = s.render.fps ∧
     (QUICKPREVIEW_OT_render_execute env s).scene.render.resolution_percentage
        = s.render.resolution_percentage ∧
     (QUICKPREVIEW_OT_render_execute env s).scene.render.filepath
        = s.render.filepath ∧
     (QUICKPREVIEW_OT_render_execute env s).scene.render.file_format
        = s.render.file_format ∧
     (QUICKPREVIEW_OT_render_execute env s).scene.render.color_mode
        = s.render.color_mode ∧
     (QUICKPREVIEW_OT_render_execute env s).scene.render.color_depth
        = s.render.color_depth ∧
     (QUICKPREVIEW_OT_render_execute env s).scene.render.compression
        = s.render.compression ∧
     (QUICKPREVIEW_OT_render_execute env s).scene.render.use_stamp
        = s.render.use_stamp ∧
     (QUICKPREVIEW_OT_render_execute env s).scene.render.use_stamp_frame
        = s.render.use_stamp_frame ∧
     (QUICKPREVIEW_OT_render_execute env s).scene.render.use_stamp_frame_range
        = s.render.use_stamp_frame_range ∧
     (QUICKPREVIEW_OT_render_execute env s).scene.render.use_stamp_camera
        = s.render.use_stamp_camera ∧
     (QUICKPREVIEW_OT_render_execute env s).scene.render.use_stamp_lens
        = s.render.use_stamp_lens ∧
     (QUICKPREVIEW_OT_render_execute env s).scene.render.use_stamp_scene
        = s.render.use_stamp_scene ∧
     (QUICKPREVIEW_OT_render_execute env s).scene.render.stamp_font_size
        = s.render.stamp_font_size ∧
     (QUICKPREVIEW_OT_render_execute env s).scene.render.ffmpeg_format
        = s.render.ffmpeg_format ∧
     (QUICKPREVIEW_OT_render_execute env s).scene.render.ffmpeg_codec
        = s.render.ffmpeg_codec ∧
     (QUICKPREVIEW_OT_render_execute env s).scene.render.ffmpeg_audio_codec
        = s.render.ffmpeg_audio_codec ∧
     (QUICKPREVIEW_OT_render_execute env s).scene.render.ffmpeg_constant_rate_factor
        = s.render.ffmpeg_constant_rate_factor ∧
     (QUICKPREVIEW_OT_render_execute env s).scene.render.ffmpeg_ffmpeg_preset
        = s.render.ffmpeg_ffmpeg_preset ∧
     (QUICKPREVIEW_OT_render_execute env s).scene.render.ffmpeg_gopsize
        = s.render.ffmpeg_gopsize ∧
     (QUICKPREVIEW_OT_render_execute env s).scene.render.ffmpeg_use_autosplit
        = s.render.ffmpeg_use_autosplit ∧
     (QUICKPREVIEW_OT_render_execute env s).scene.render.ffmpeg_audio_channels
        = s.render.ffmpeg_audio_channels ∧
     (QUICKPREVIEW_OT_render_execute env s).scene.render.ffmpeg_audio_bitrate
        = s.render.ffmpeg_audio_bitrate ∧
     (QUICKPREVIEW_OT_render_execute env s).scene.render.audio_mixrate
        = s.render.audio_mixrate ∧
     (QUICKPREVIEW_OT_render_execute env s).scene.render.use_sequencer
        = s.render.use_sequencer ∧
     (QUICKPREVIEW_OT_render_execute env s).scene.render.use_simplify
        = s.render.use_simplify) ∧
    (∀ c, s.camera = some c → c ≠ "None" → c ∈ env.objects →
       (QUICKPREVIEW_OT_render_execute env s).scene.camera = s.camera) := by
  by_cases h : env.is_saved
  · have hsc : (QUICKPREVIEW_OT_render_execute env s).scene
        = (renderFinally env s).1 := by
      unfold QUICKPREVIEW_OT_render_execute
      rw [h]
      rfl
    rw [hsc]
    unfold renderFinally
    refine ⟨⟨rfl, rfl, rfl, rfl, rfl, rfl, rfl, rfl, rfl, rfl, rfl, rfl, rfl, rfl,
      rfl, rfl, rfl, rfl, rfl, rfl, rfl, rfl, rfl, rfl, rfl, rfl, rfl, rfl⟩, ?_⟩
    intro c hc hne hmem
    rw [hc]
    exact restore_store_camera env.objects s _ c hc hne hmem
  · have hsc : (QUICKPREVIEW_OT_render_execute env s).scene = s := by
      unfold QUICKPREVIEW_OT_render_execute
      rw [Bool.not_eq_true] at h
      rw [h]
      rfl
    rw [hsc]
    exact ⟨⟨rfl, rfl, rfl, rfl, rfl, rfl, rfl, rfl, rfl, rfl, rfl, rfl, rfl, rfl,
      rfl, rfl, rfl, rfl, rfl, rfl, rfl, rfl, rfl, rfl, rfl, rfl, rfl, rfl⟩,
      fun c hc hne hmem => rfl⟩

/-- Claim C5: the queue processor returns `{'CANCELLED'}` untouched on
an empty queue; otherwise it returns `{'FINISHED'}`, restores
`scene.camera`, the scene frame range and `quickpreview_output_path`
to their pre-processing values, and processes the items in list order —
every disabled item comes back unchanged and every enabled item ends
`COMPLETED` exactly when the render invocation at that point returned
`FINISHED`, `FAILED` otherwise. -/
theorem process_queue_spec (render : Scene → Scene × Bool)
    (queue : List QueueItem) (s : Scene) :
    (queue = [] →
       QUICKPREVIEW_OT_process_queue_execute render queue s =
         { queue := queue, scene := s, result := "CANCELLED",
           warningReported := true }) ∧
    (queue ≠ [] →
       (QUICKPREVIEW_OT_process_queue_execute render queue s).result = "FINISHED" ∧
       (QUICKPREVIEW_OT_process_queue_execute render queue s).scene.camera
          = s.camera ∧
       (QUICKPREVIEW_OT_process_queue_execute render queue s).scene.frame_start
          = s.frame_start ∧
       (QUICKPREVIEW_OT_process_queue_execute render queue s).scene.frame_end
          = s.frame_end ∧
       (QUICKPREVIEW_OT_process_queue_execute render queue s).scene.qp_output_path
          = s.qp_output_path ∧
       (QUICKPREVIEW_OT_process_queue_execute render queue s).queue.length
          = queue.length) ∧
    (∀ i : Nat,
       (QUICKPREVIEW_OT_process_queue_execute render queue s).queue[i]? =
         (queue[i]?).map (fun it =>
           if it.enabled then
             { it with status :=
                 if (render (applyQueueItemSettings { it with status := "PROCESSING" }
                       (sceneAfterItems render (queue.take i) s))).2
                 then "COMPLETED" else "FAILED" }
           else it)) := by
  refine ⟨?_, ?_, ?_⟩
  · intro h
    subst h
    rfl
  · intro h
    have hne : queue.isEmpty = false := by
      cases queue with
      | nil => exact absurd rfl h
      | cons a l => rfl
    have hunf : QUICKPREVIEW_OT_process_queue_execute render queue s =
        { queue := (processQueueItems render queue s).1,
          scene := { (processQueueItems render queue s).2 with
                       camera := s.camera, frame_start := s.frame_start,
                       frame_end := s.frame_end,
                       qp_output_path := s.qp_output_path },
          result := "FINISHED", warningReported := false } := by
      unfold QUICKPREVIEW_OT_process_queue_execute
      rw [hne]
      rfl
    rw [hunf]
    exact ⟨rfl, rfl, rfl, rfl, rfl, processQueueItems_length render queue s⟩
  · intro i
    cases hq : queue with
    | nil =>
      simp [QUICKPREVIEW_OT_process_queue_execute, List.isEmpty_nil]
    | cons a l =>
      have hne : (a :: l).isEmpty = false := rfl
      have hunf : QUICKPREVIEW_OT_process_queue_execute render (a :: l) s =
          { queue := (processQueueItems render (a :: l) s).1,
            scene := { (processQueueItems render (a :: l) s).2 with
                         camera := s.camera, frame_start := s.frame_start,
                         frame_end := s.frame_end,
                         qp_output_path := s.qp_output_path },
            result := "FINISHED", warningReported := false } := by
        unfold QUICKPREVIEW_OT_process_queue_execute
        rw [hne]
        rfl
      rw [hunf]
      exact processQueueItems_getElem render (a :: l) s i

/-- Claim C7: restoration is best-effort — `restore_original_settings`
returns `False` exactly when a backed-up camera name (other than the
`"None"` sentinel) no longer exists, while still applying every other
stored field; and the render operator keeps the on-disk backup file
exactly when restoration did not report success, deleting it
otherwise. -/
theorem restore_best_effort_spec (objects : List String) (b : Backup) (t : Scene)
    (env : Env) (s : Scene) (hsaved : env.is_saved = true) :
    ((restore_original_settings objects b t).2 = false ↔
       (b.camera ≠ "None" ∧ b.camera ∉ objects)) ∧
    ((restore_original_settings objects b t).1.frame_start = b.frame_start ∧
     (restore_original_settings objects b t).1.frame_end = b.frame_end ∧
     (restore_original_settings objects b t).1.render.fps = b.fps ∧
     (restore_original_settings objects b t).1.render.resolution_percentage
        = b.resolution_percentage ∧
     (restore_original_settings objects b t).1.render.filepath = b.filepath ∧
     (restore_original_settings objects b t).1.render.file_format = b.file_format ∧
     (restore_original_settings objects b t).1.render.use_stamp = b.use_stamp ∧
     (restore_original_settings objects b t).1.render.stamp_font_size
        = b.stamp_font_size ∧
     (restore_original_settings objects b t).1.render.ffmpeg_format
        = b.ffmpeg_format ∧
     (restore_original_settings objects b t).1.render.ffmpeg_codec
        = b.ffmpeg_codec ∧
     (restore_original_settings objects b t).1.render.ffmpeg_constant_rate_factor
        = b.ffmpeg_constant_rate_factor ∧
     (restore_original_settings objects b t).1.render.use_sequencer
        = b.use_sequencer ∧
     (restore_original_settings objects b t).1.render.use_simplify
        = b.use_simplify) ∧
    ((QUICKPREVIEW_OT_render_execute env s).backupKept = true ↔
       (QUICKPREVIEW_OT_render_execute env s).restoreOk = false) ∧
    ((QUICKPREVIEW_OT_render_execute env s).restoreOk
        = (renderFinally env s).2) := by
  have hkept : (QUICKPREVIEW_OT_render_execute env s).backupKept
      = !(renderFinally env s).2 := by
    unfold QUICKPREVIEW_OT_render_execute
    rw [hsaved]
    rfl
  have hok : (QUICKPREVIEW_OT_render_execute env s).restoreOk
      = (renderFinally env s).2 := by
    unfold QUICKPREVIEW_OT_render_execute
    rw [hsaved]
    rfl
  refine ⟨restore_false_iff objects b t,
    ⟨rfl, rfl, rfl, rfl, rfl, rfl, rfl, rfl, rfl, rfl, rfl, rfl, rfl⟩, ?_, hok⟩
  rw [hkept, hok]
  cases (renderFinally env s).2 <;> simp

/-- Claim C9: the `quickpreview_progress` property stays within
`[0, 1]` — the timer stores the `max 0 (min 1 …)` clamp of its computed
value, and the render operator's own writes are exactly `0.0` or `1.0`
(or it leaves the property alone when the unsaved-file guard fires). -/
theorem progress_within_unit_interval (env : Env) (s : Scene)
    (h0 : 0 ≤ s.qp_progress) (h1 : s.qp_progress ≤ 1) :
    (0 ≤ (update_render_progress s).1.qp_progress ∧
     (update_render_progress s).1.qp_progress ≤ 1) ∧
    (0 ≤ (QUICKPREVIEW_OT_render_execute env s).scene.qp_progress ∧
     (QUICKPREVIEW_OT_render_execute env s).scene.qp_progress ≤ 1) ∧
    ((QUICKPREVIEW_OT_render_execute env s).scene.qp_progress = 0 ∨
     (QUICKPREVIEW_OT_render_execute env s).scene.qp_progress = 1 ∨
     (QUICKPREVIEW_OT_render_execute env s).scene.qp_progress
        = s.qp_progress) := by
  have hexec := render_execute_progress env s
  refine ⟨?_, ?_, ?_⟩
  · unfold update_render_progress
    by_cases hr : s.qp_is_rendering
    · rw [if_pos hr]
      show 0 ≤ (if s.frame_end > s.frame_start then
              { s with qp_progress := max 0 (min 1 (progress_raw s)) }
            else s).qp_progress ∧
          (if s.frame_end > s.frame_start then
              { s with qp_progress := max 0 (min 1 (progress_raw s)) }
            else s).qp_progress ≤ 1
      by_cases hf : s.frame_end > s.frame_start
      · rw [if_pos hf]
        exact ⟨le_max_left 0 _, max_le (by norm_num) (min_le_left 1 _)⟩
      · rw [if_neg hf]
        exact ⟨h0, h1⟩
    · rw [if_neg hr]
      exact ⟨h0, h1⟩
  · rw [hexec]
    split_ifs
    · exact ⟨by norm_num, by norm_num⟩
    · exact ⟨by norm_num, by norm_num⟩
    · exact ⟨h0, h1⟩
  · rw [hexec]
    split_ifs with ha hb
    · exact Or.inr (Or.inl rfl)
    · exact Or.inl rfl
    · exact Or.inr (Or.inr rfl)

/-! ### Concrete scenes and environments for the witnesses and the
counterexample -/

/-- A render-settings state with the extra stamp flags switched on, so
a burn-metadata run exposes which of them survive. -/
def sampleRender : RenderSettings :=
  { fps := 24, resolution_percentage := 100, filepath := "//orig",
    file_format := "PNG", color_mode := "RGBA", color_depth := "8",
    compression := 15, quality := 50,
    use_stamp := false, use_stamp_frame := false, use_stamp_frame_range := false,
    use_stamp_camera := false, use_stamp_lens := false, use_stamp_scene := false,
    use_stamp_date := true, use_stamp_time := true, use_stamp_render_time := false,
    use_stamp_memory := false, use_stamp_hostname := false,
    use_stamp_marker := false, use_stamp_filename := false, stamp_font_size := 12,
    ffmpeg_format := "AVI", ffmpeg_codec := "NONE", ffmpeg_audio_codec := "NONE",
    ffmpeg_constant_rate_factor := "LOSSLESS", ffmpeg_ffmpeg_preset := "GOOD",
    ffmpeg_gopsize := 18, ffmpeg_use_autosplit := false,
    ffmpeg_audio_channels := 2, ffmpeg_audio_bitrate := 192,
    audio_mixrate := 48000, use_sequencer := true, use_simplify := false }

/-- A saved scene with an active camera, burn-metadata enabled, and an
already-set output path in overwrite mode. -/
def sampleScene : Scene :=
  { frame_start := 1, frame_end := 100, frame_current := 1,
    camera := some "OldCam", render := sampleRender,
    qp_camera := "Cam", qp_frame_start := 2, qp_frame_end := 5,
    qp_output_path := "/tmp/p.mp4", qp_output_format := "MP4_H264",
    qp_save_mode := "OVERWRITE", qp_video_quality := "MEDIUM",
    qp_image_quality := 90, qp_use_simplify := true, qp_override_fps := true,
    qp_fps := 30, qp_override_resolution_scale := false,
    qp_resolution_scale := 50, qp_burn_metadata := true,
    qp_metadata_fontsize := 24, qp_progress := 0, qp_is_rendering := false,
    qp_camera_ranges := [], qp_include_scene_name := true,
    qp_include_camera := true, qp_full_scene_name := false }

/-- A host environment for a saved file where the render succeeds. -/
def sampleEnv : Env :=
  { is_saved := true, objects := ["Cam", "OldCam"], timerOk := true,
    renderOk := true, has_vse_audio := false, has_scene_audio := false,
    exists_dir := fun _ => false, listdir := fun _ => [],
    glob := fun _ => [], blend_basename := "file_v003.blend",
    default_folder := "/defaults", abspath := fun p => p }

/-- The same environment with the Blender file never saved. -/
def unsavedEnv : Env := { sampleEnv with is_saved := false }

/-- Counterexample to claim C1 as stated: a successful (`FINISHED`)
run of `quickpreview.render` with burn-metadata enabled permanently
flips the metadata stamp setting `use_stamp_date` from `true` to
`false` — the operator mutates it (line 878) but
`store_original_settings` never backs it up, so
`restore_original_settings` cannot bring it back. -/
theorem quickpreview_render_stamp_date_cex :
    sampleScene.render.use_stamp_date = true ∧
    (QUICKPREVIEW_OT_render_execute sampleEnv sampleScene).result = "FINISHED" ∧
    (QUICKPREVIEW_OT_render_execute sampleEnv sampleScene).scene.render.use_stamp_date
        = false :=
  ⟨rfl, rfl, rfl⟩

/-- Witness for C1 (amended): on the sample run the camera (existing,
not named `"None"`) and the backed-up fps come back unchanged. -/
theorem quickpreview_render_settings_restore_witness :
    sampleScene.camera = some "OldCam" ∧
    ("OldCam" : String) ≠ "None" ∧
    "OldCam" ∈ sampleEnv.objects ∧
    (QUICKPREVIEW_OT_render_execute sampleEnv sampleScene).scene.camera
        = sampleScene.camera ∧
    (QUICKPREVIEW_OT_render_execute sampleEnv sampleScene).scene.render.fps
        = sampleScene.render.fps :=
  ⟨rfl, by decide, by decide,
   (quickpreview_render_settings_restore sampleEnv sampleScene).2 "OldCam" rfl
     (by decide) (by decide),
   ((quickpreview_render_settings_restore sampleEnv sampleScene).1).2.2.1⟩

/-- A scene carrying a distinctive preview range to save and reload. -/
def rangeScene : Scene :=
  { sampleScene with qp_frame_start := 7, qp_frame_end := 42 }

/-- Witness for C2: saving camera `CamA`'s range `(7, 42)` and loading
it back restores both preview range properties. -/
theorem camera_frame_range_roundtrip_witness :
    ("CamA" : String) ≠ "VIEWPORT" ∧
    (load_camera_frame_range "CamA"
        ((save_camera_frame_range "CamA" rangeScene false).1)
        ((save_camera_frame_range "CamA" rangeScene false).2)).1.qp_frame_start
      = 7 ∧
    (load_camera_frame_range "CamA"
        ((save_camera_frame_range "CamA" rangeScene false).1)
        ((save_camera_frame_range "CamA" rangeScene false).2)).1.qp_frame_end
      = 42 :=
  ⟨by decide,
   (camera_frame_range_roundtrip "CamA" rangeScene
     ((save_camera_frame_range "CamA" rangeScene false).1) false
     (by decide) rfl).1,
   (camera_frame_range_roundtrip "CamA" rangeScene
     ((save_camera_frame_range "CamA" rangeScene false).1) false
     (by decide) rfl).2⟩

/-- Witness for C3: `shot_v002.mov` in a directory holding versions 1
and 3 (plus an unrelated file) gets next version 4, strictly above the
matching version 3. -/
theorem next_version_number_spec_witness :
    extractBase ".mov".toList (pathBasename "/x/shot_v002.mov").toList
        = some "shot".toList ∧
    get_next_version_number "/x/shot_v002.mov" ".mov"
        (some ["shot_v001.mov", "shot_v003.mov", "readme.txt"]) = 4 ∧
    versionOfName "shot".toList ".mov".toList "shot_v003.mov".toList = some 3 ∧
    3 < get_next_version_number "/x/shot_v002.mov" ".mov"
        (some ["shot_v001.mov", "shot_v003.mov", "readme.txt"]) :=
  ⟨by decide, by decide, by decide,
   ((next_version_number_spec "/x/shot_v002.mov" ".mov"
       ["shot_v001.mov", "shot_v003.mov", "readme.txt"]).2.2.2 "shot".toList
       (by decide)).1 "shot_v003.mov" (by decide) 3 (by decide)⟩

/-- A render stub for the queue witness: leaves the scene unchanged
and reports `FINISHED`. -/
def queueRenderStub : Scene → Scene × Bool := fun sc => (sc, true)

/-- An enabled pending queue item. -/
def queueItemA : QueueItem :=
  { camera_name := "Cam", frame_start := 1, frame_end := 10,
    output_path := "/tmp/a.mp4", enabled := true, status := "PENDING" }

/-- A disabled pending queue item. -/
def queueItemB : QueueItem :=
  { camera_name := "OldCam", frame_start := 5, frame_end := 8,
    output_path := "/tmp/b.mp4", enabled := false, status := "PENDING" }

/-- Witness for C5: a two-item queue finishes, the enabled first item
completes, the disabled second item is untouched, and the camera is
restored. -/
theorem process_queue_spec_witness :
    ([queueItemA, queueItemB] : List QueueItem) ≠ [] ∧
    (QUICKPREVIEW_OT_process_queue_execute queueRenderStub
        [queueItemA, queueItemB] sampleScene).result = "FINISHED" ∧
    (QUICKPREVIEW_OT_process_queue_execute queueRenderStub
        [queueItemA, queueItemB] sampleScene).scene.camera = sampleScene.camera ∧
    (QUICKPREVIEW_OT_process_queue_execute queueRenderStub
        [queueItemA, queueItemB] sampleScene).queue[0]?
      = some { queueItemA with status := "COMPLETED" } ∧
    (QUICKPREVIEW_OT_process_queue_execute queueRenderStub
        [queueItemA, queueItemB] sampleScene).queue[1]? = some queueItemB :=
  ⟨by decide,
   ((process_queue_spec queueRenderStub [queueItemA, queueItemB]
       sampleScene).2.1 (by decide)).1,
   ((process_queue_spec queueRenderStub [queueItemA, queueItemB]
       sampleScene).2.1 (by decide)).2.1,
   by decide, by decide⟩

/-- A scene in mid-render at frame 50 of 1-100. -/
def progressScene : Scene :=
  { sampleScene with qp_is_rendering := true, frame_current := 50 }

/-- Witness for C6: with `frame_end > frame_start` the total is the
inclusive count and the timer stores the clamped ratio. -/
theorem render_frame_range_inclusive_witness :
    progressScene.frame_end > progressScene.frame_start ∧
    total_frames progressScene
        = progressScene.frame_end - progressScene.frame_start + 1 ∧
    (update_render_progress progressScene).1.qp_progress
        = max 0 (min 1 (progress_raw progressScene)) :=
  ⟨by decide,
   ((render_frame_range_inclusive sampleEnv progressScene).2.2 (by decide)).1,
   ((render_frame_range_inclusive sampleEnv progressScene).2.2 (by decide)).2.2 rfl⟩

/-- A backup whose camera name no longer exists among the objects. -/
def missingCamBackup : Backup :=
  { store_original_settings sampleScene with camera := "Gone" }

/-- Witness for C7: the failure condition is exactly the missing
camera, the other fields are still applied, and on the sample run the
backup file is kept exactly when restoration fails. -/
theorem restore_best_effort_spec_witness :
    sampleEnv.is_saved = true ∧
    ((restore_original_settings sampleEnv.objects missingCamBackup
        sampleScene).2 = false ↔
      (missingCamBackup.camera ≠ "None" ∧
       missingCamBackup.camera ∉ sampleEnv.objects)) ∧
    (restore_original_settings sampleEnv.objects missingCamBackup
        sampleScene).1.render.fps = missingCamBackup.fps ∧
    ((QUICKPREVIEW_OT_render_execute sampleEnv sampleScene).backupKept = true ↔
     (QUICKPREVIEW_OT_render_execute sampleEnv sampleScene).restoreOk = false) :=
  ⟨rfl,
   (restore_best_effort_spec sampleEnv.objects missingCamBackup sampleScene
     sampleEnv sampleScene rfl).1,
   (restore_best_effort_spec sampleEnv.objects missingCamBackup sampleScene
     sampleEnv sampleScene rfl).2.1.2.2.1,
   (restore_best_effort_spec sampleEnv.objects missingCamBackup sampleScene
     sampleEnv sampleScene rfl).2.2.1⟩

/-- Witness for C8: with the file unsaved, the run is a rejected no-op. -/
theorem render_unsaved_guard_witness :
    unsavedEnv.is_saved = false ∧
    QUICKPREVIEW_OT_render_execute unsavedEnv sampleScene =
      { scene := sampleScene, result := "CANCELLED", backupWritten := false,
        backupKept := false, timerRegistered := false, restoreOk := true,
        errorReported := true, warningReported := false } :=
  ⟨rfl, render_unsaved_guard unsavedEnv sampleScene rfl⟩

/-- A scene whose progress sits strictly inside the unit interval. -/
def halfScene : Scene := { sampleScene with qp_progress := 1 / 2 }

/-- Witness for C9: starting from progress `1/2`, the timer's stored
value stays inside `[0, 1]`. -/
theorem progress_within_unit_interval_witness :
    (0 : ℚ) ≤ halfScene.qp_progress ∧ halfScene.qp_progress ≤ 1 ∧
    (0 ≤ (update_render_progress halfScene).1.qp_progress ∧
     (update_render_progress halfScene).1.qp_progress ≤ 1) := by
  have h0 : (0 : ℚ) ≤ halfScene.qp_progress := by
    show (0 : ℚ) ≤ 1 / 2
    norm_num
  have h1 : halfScene.qp_progress ≤ 1 := by
    show (1 : ℚ) / 2 ≤ 1
    norm_num
  exact ⟨h0, h1, (progress_within_unit_interval sampleEnv halfScene h0 h1).1⟩

/-- Two stored camera ranges for the deletion witness. -/
def delRanges : List (String × Int × Int) := [("CamA", 1, 20), ("CamB", 3, 9)]

/-- Witness for C10: deleting `CamA` removes exactly its entry and
leaves `CamB`'s lookup unchanged. -/
theorem delete_camera_range_spec_witness :
    jmem "CamA" delRanges = true ∧
    jget "CamA"
        (QUICKPREVIEW_OT_delete_camera_range_execute "CamA" delRanges).ranges
      = none ∧
    ("CamB" : String) ≠ "CamA" ∧
    jget "CamB"
        (QUICKPREVIEW_OT_delete_camera_range_execute "CamA" delRanges).ranges
      = jget "CamB" delRanges :=
  ⟨by decide,
   ((delete_camera_range_spec "CamA" delRanges).2.1 (by decide)).1,
   by decide,
   ((delete_camera_range_spec "CamA" delRanges).2.1 (by decide)).2.1 "CamB"
     (by decide)⟩

end PreviewBuddy
